import Mathlib

/-!
Verification of the project generator in `create-app.js`
(`create-react-express-app`, a CLI that scaffolds a React + Express + Vite
project).

The script's single `action` callback:
  * checks whether the target directory exists and aborts with exit code 1
    if so (lines 18-21);
  * otherwise creates the directory, shells out to npm, writes five fixed
    template files (the `files` object literal, lines 39-118), and patches
    `package.json` by the two assignments `packageJson.type = 'module'` and
    `packageJson.scripts = {...}` (lines 131-136).

We embed the generated file contents structurally (each template as a record
of the configuration it expresses), the `package.json` document as an
association list with JavaScript object key-assignment semantics, and the
whole CLI action as a function from its inputs to the list of side effects
it performs plus its exit status.
-/

/-- A JSON-like value, as handled by `fs.readJsonSync` / `fs.writeJsonSync`
for the `package.json` document. Objects are association lists whose key
order is the JavaScript insertion order. -/
inductive JValue where
  | str : String → JValue
  | num : Int → JValue
  | bool : Bool → JValue
  | obj : List (String × JValue) → JValue

/-- JavaScript property assignment `o[k] = v` on an object represented as an
association list: if the key is present its first binding is overwritten in
place (position preserved), otherwise the new binding is appended at the
end. This is the semantics of `packageJson.type = ...` and
`packageJson.scripts = ...` in `create-app.js` lines 131-136. -/
def setKey : List (String × JValue) → String → JValue → List (String × JValue)
  | [], k, v => [(k, v)]
  | p :: ps, k, v => if p.1 == k then (k, v) :: ps else p :: setKey ps k v

/-- JavaScript property read `o[k]`: value of the first binding of `k`,
if any. -/
def getKey (m : List (String × JValue)) (k : String) : Option JValue :=
  (m.find? (fun p => p.1 == k)).map Prod.snd

/-- The `scripts` object assigned at `create-app.js` lines 132-136. -/
def scriptsObj : List (String × JValue) :=
  [ ("dev", JValue.str "vite"),
    ("build", JValue.str "vite build"),
    ("start", JValue.str "NODE_ENV=production node server.js") ]

/-- The manifest patch: the ordered key overwrites the generator applies to
`package.json` (lines 131-136). -/
def manifestPatch : List (String × JValue) :=
  [ ("type", JValue.str "module"),
    ("scripts", JValue.obj scriptsObj) ]

/-- Applying the patch to a manifest document: the two successive property
assignments of `create-app.js` lines 131-136. -/
def applyManifestPatch (m : List (String × JValue)) : List (String × JValue) :=
  setKey (setKey m "type" (JValue.str "module")) "scripts" (JValue.obj scriptsObj)

/-- The generated `server.js` template (`create-app.js` lines 40-61),
embedded structurally: an Express server on `process.env.PORT || 3000` that
in production serves the static `dist` directory and falls back to
`dist/index.html` on every unmatched route, and otherwise only logs a
development-mode message. -/
structure ServerEntry where
  portEnvVar : String
  defaultPort : Nat
  prodStaticDir : String
  prodFallbackFile : String
  devLogMessage : String

/-- Contents of the generated `server.js` (lines 40-61). -/
def serverJs : ServerEntry :=
  { portEnvVar := "PORT"
    defaultPort := 3000
    prodStaticDir := "dist"
    prodFallbackFile := "dist/index.html"
    devLogMessage := "In development mode. Use Vite for the frontend." }

/-- The port expression `process.env.PORT || 3000` of `server.js` line 45:
an unset or empty `PORT` environment variable falls through to the numeric
default; otherwise the raw string is used. -/
def effectivePort (envPORT : Option String) : String ⊕ Nat :=
  match envPORT with
  | none => Sum.inr serverJs.defaultPort
  | some s => if s = "" then Sum.inr serverJs.defaultPort else Sum.inl s

/-- One rule of the `server.proxy` map in the generated `vite.config.js`
(lines 72-80). `rewritePattern` is the source of the regex literal passed
to `path.replace` (here `/api/`, i.e. the literal text `api`, first match,
not anchored), `rewriteReplacement` the replacement string. -/
structure ViteProxyRule where
  matchPath : String
  target : String
  changeOrigin : Bool
  rewritePattern : String
  rewriteReplacement : String

/-- The `build` section of the generated `vite.config.js` (lines 68-71). -/
structure ViteBuild where
  outDir : String
  sourcemap : Bool

/-- The generated `vite.config.js` template (lines 62-82), embedded
structurally. -/
structure ViteConfig where
  pluginReact : Bool
  build : ViteBuild
  proxy : List ViteProxyRule

/-- Contents of the generated `vite.config.js` (lines 62-82). -/
def viteConfigJs : ViteConfig :=
  { pluginReact := true
    build := { outDir := "dist", sourcemap := true }
    proxy := [ { matchPath := "/api"
                 target := "http://localhost:3000"
                 changeOrigin := true
                 rewritePattern := "api"
                 rewriteReplacement := "" } ] }

/-- `startsWithList s p` is true iff `p` is an initial segment of `s`. -/
def startsWithList : List Char → List Char → Bool
  | _, [] => true
  | [], _ :: _ => false
  | c :: cs, p :: ps => c == p && startsWithList cs ps

/-- First-occurrence replacement on character lists: the first occurrence of
`pat` in `s` is replaced by `repl`; if `pat` does not occur, `s` is
returned unchanged. -/
def replaceFirst (s pat repl : List Char) : List Char :=
  match s with
  | [] => if pat = [] then repl else []
  | c :: cs =>
    if startsWithList (c :: cs) pat then repl ++ (c :: cs).drop pat.length
    else c :: replaceFirst cs pat repl

/-- JavaScript `s.replace(re, repl)` for a non-global regex literal whose
pattern is plain literal text (as in the generated rewrite
`path.replace(/api/, '')`): replaces the first occurrence only. -/
def jsReplaceFirst (s pat repl : String) : String :=
  String.mk (replaceFirst s.toList pat.toList repl.toList)

/-- The rewrite function of a proxy rule, as generated on line 77:
`(path) => path.replace(/api/, '')`. -/
def applyRewrite (r : ViteProxyRule) (p : String) : String :=
  jsReplaceFirst p r.rewritePattern r.rewriteReplacement

/-- An attribute of an HTML element: (name, value). -/
abbrev HtmlAttrs := List (String × String)

/-- A node of the generated `index.html` document. -/
inductive HtmlNode where
  | element : String → HtmlAttrs → List HtmlNode → HtmlNode
  | text : String → HtmlNode

/-- The generated `index.html` template (lines 83-97): doctype line plus the
root `html` element. -/
structure HtmlShell where
  doctype : String
  root : HtmlNode

/-- Contents of the generated `index.html` (lines 83-97). -/
def indexHtml : HtmlShell :=
  { doctype := "html"
    root := HtmlNode.element "html" [("lang", "en")]
      [ HtmlNode.element "head" []
          [ HtmlNode.element "meta" [("charset", "UTF-8")] [],
            HtmlNode.element "link"
              [("rel", "icon"), ("type", "image/svg+xml"), ("href", "/vite.svg")] [],
            HtmlNode.element "meta"
              [("name", "viewport"),
               ("content", "width=device-width, initial-scale=1.0")] [],
            HtmlNode.element "title" [] [HtmlNode.text "Vite + React"] ],
        HtmlNode.element "body" []
          [ HtmlNode.element "div" [("id", "root")] [],
            HtmlNode.element "script"
              [("type", "module"), ("src", "/src/index.jsx")] [] ] ] }

/-- `hasAttr attrs n v` holds iff the attribute list binds name `n` to
value `v`. -/
def hasAttr (attrs : HtmlAttrs) (n v : String) : Bool :=
  attrs.any (fun a => a.1 == n && a.2 == v)

mutual
/-- Number of elements in a node (itself included) whose tag and attributes
satisfy `p`. -/
def countElems (p : String → HtmlAttrs → Bool) : HtmlNode → Nat
  | HtmlNode.element tag attrs children =>
      (if p tag attrs then 1 else 0) + countElemsList p children
  | HtmlNode.text _ => 0
/-- Number of elements in a forest whose tag and attributes satisfy `p`. -/
def countElemsList (p : String → HtmlAttrs → Bool) : List HtmlNode → Nat
  | [] => 0
  | n :: ns => countElems p n + countElemsList p ns
end

/-- The generated `src/index.jsx` template (lines 98-108), embedded
structurally: it looks up the mount element by id, and renders the imported
root component wrapped in `StrictMode`. -/
structure UiBootstrap where
  mountElementId : String
  appImportPath : String
  wrappedInStrictMode : Bool

/-- Contents of the generated `src/index.jsx` (lines 98-108). -/
def uiBootstrap : UiBootstrap :=
  { mountElementId := "root"
    appImportPath := "./App.jsx"
    wrappedInStrictMode := true }

/-- The generated `src/App.jsx` template (lines 109-117): a component that
renders a static greeting heading. -/
structure UiRootComponent where
  greetingTag : String
  greetingText : String

/-- Contents of the generated `src/App.jsx` (lines 109-117). -/
def appComponent : UiRootComponent :=
  { greetingTag := "h1", greetingText := "Hello, Vite + React!" }

/-- The content of one scaffold entry, tagged by which template it is. -/
inductive FileContent where
  | server : ServerEntry → FileContent
  | vite : ViteConfig → FileContent
  | html : HtmlShell → FileContent
  | bootstrap : UiBootstrap → FileContent
  | component : UiRootComponent → FileContent

/-- The `files` object literal of `create-app.js` lines 39-118, in insertion
order (the order `Object.entries` yields on line 122). -/
def files : List (String × FileContent) :=
  [ ("server.js", FileContent.server serverJs),
    ("vite.config.js", FileContent.vite viteConfigJs),
    ("index.html", FileContent.html indexHtml),
    ("src/index.jsx", FileContent.bootstrap uiBootstrap),
    ("src/App.jsx", FileContent.component appComponent) ]

/-- Output of the Project Generator: the scaffold entries and the manifest
patch. -/
structure GenOutput where
  entries : List (String × FileContent)
  patch : List (String × JValue)

/-- The Project Generator: given the application name, the scaffold entries
(lines 39-118) and the manifest patch (lines 131-136). Neither the `files`
object literal nor the patched keys mention `appName` anywhere in the
source, so the body does not use its argument. -/
def generate (_appName : String) : GenOutput :=
  { entries := files, patch := manifestPatch }

/-- One side effect performed by the CLI action: a console message, a
directory creation (`fs.mkdirSync`, with its `recursive` flag), a shell
command run in a working directory (`execSync`), a scaffold file write
(`fs.outputFileSync`), a JSON read (`fs.readJsonSync`) or a JSON write
(`fs.writeJsonSync`, with its `spaces` option). -/
inductive Effect where
  | log : String → Effect
  | mkdir : String → Bool → Effect
  | exec : String → String → Effect
  | writeFile : String → FileContent → Effect
  | readJson : String → Effect
  | writeJson : String → List (String × JValue) → Nat → Effect

/-- Whether an effect mutates the filesystem or invokes a process; console
output and the JSON read do not. -/
def isMutation : Effect → Bool
  | Effect.log _ => false
  | Effect.readJson _ => false
  | Effect.mkdir _ _ => true
  | Effect.exec _ _ => true
  | Effect.writeFile _ _ => true
  | Effect.writeJson _ _ _ => true

/-- Result of one run of the CLI action: the effects it performed, in
order, and `some c` when it terminated via `process.exit(c)` (it finishes
normally, exit status 0, otherwise). -/
structure RunResult where
  effects : List Effect
  exitCode : Option Nat

/-- `path.join(a, b)` for the simple relative segments this script joins. -/
def pathJoin (a b : String) : String := a ++ "/" ++ b

/-- The runtime dependencies installed on line 34. -/
def dependencies : List String := ["react", "react-dom", "express"]

/-- The development dependencies installed on line 35. -/
def devDependencies : List String := ["vite", "@vitejs/plugin-react"]

/-- The CLI action (`program.action`, `create-app.js` lines 15-143) as a
function of its ambient inputs: the current working directory, the
`app-name` argument, whether the target directory already exists
(`fs.existsSync(appPath)`), and the `package.json` document that
`npm init -y` leaves behind (read on line 130). It returns the ordered
effect trace and the exit status. Colored output (chalk) is dropped;
messages are kept verbatim. -/
def runCli (cwd appName : String) (dirExists : Bool)
    (initManifest : List (String × JValue)) : RunResult :=
  let appPath := pathJoin cwd appName
  if dirExists then
    { effects := [Effect.log ("Directory " ++ appName ++ " already exists.")]
      exitCode := some 1 }
  else
    { effects :=
        [ Effect.log ("Creating project in " ++ appPath ++ "..."),
          Effect.mkdir appPath false,
          Effect.log "Initializing npm project...",
          Effect.exec "npm init -y" appPath,
          Effect.log "Installing dependencies...",
          Effect.exec ("npm install " ++ String.intercalate " " dependencies) appPath,
          Effect.exec ("npm install --save-dev " ++
            String.intercalate " " devDependencies) appPath,
          Effect.log "Setting up project structure...",
          Effect.mkdir (pathJoin appPath "src") true ]
        ++ (generate appName).entries.map
            (fun e => Effect.writeFile (pathJoin appPath e.1) e.2)
        ++ [ Effect.log "Updating package.json...",
             Effect.readJson (pathJoin appPath "package.json"),
             Effect.writeJson (pathJoin appPath "package.json")
               (applyManifestPatch initManifest) 2,
             Effect.log "Project created successfully!",
             Effect.log "Run the following commands to get started:",
             Effect.log ("cd " ++ appName),
             Effect.log "npm run dev" ]
      exitCode := none }

-- Basic lemmas about JavaScript-style key assignment.

theorem getKey_setKey_self (m : List (String × JValue)) (k : String) (v : JValue) :
    getKey (setKey m k v) k = some v := by
  induction m with
  | nil => simp [setKey, getKey, List.find?]
  | cons p ps ih =>
    by_cases h : p.1 == k
    · simp [setKey, getKey, List.find?, h]
    · simpa [setKey, getKey, List.find?, h] using ih

theorem getKey_setKey_ne (m : List (String × JValue)) (k k' : String) (v : JValue)
    (h : k' ≠ k) : getKey (setKey m k v) k' = getKey m k' := by
  induction m with
  | nil =>
    simp [setKey, getKey, List.find?, show (k == k') = false from
      beq_eq_false_iff_ne.mpr (Ne.symm h)]
  | cons p ps ih =>
    by_cases hp : p.1 == k
    · have hpk : p.1 = k := eq_of_beq hp
      have : (k == k') = false := beq_eq_false_iff_ne.mpr (Ne.symm h)
      simp [setKey, getKey, List.find?, hp, this, hpk]
    · by_cases hq : p.1 == k'
      · simp [setKey, getKey, List.find?, hp, hq]
      · simpa [setKey, getKey, List.find?, hp, hq] using ih

theorem setKey_getKey_eq (m : List (String × JValue)) (k : String) (v : JValue)
    (h : getKey m k = some v) : setKey m k v = m := by
  induction m with
  | nil => simp [getKey, List.find?] at h
  | cons p ps ih =>
    by_cases hp : p.1 == k
    · have hpk : p.1 = k := eq_of_beq hp
      have hv : p.2 = v := by
        simp [getKey, List.find?, hp] at h
        exact h
      simp [setKey, hp, ← hpk, ← hv]
    · have h' : getKey ps k = some v := by
        simpa [getKey, List.find?, hp] using h
      simp [setKey, hp, ih h']

theorem filter_setKey (m : List (String × JValue)) (k : String) (v : JValue)
    (q : String × JValue → Bool) (hq : ∀ w, q (k, w) = false) :
    (setKey m k v).filter q = m.filter q := by
  induction m with
  | nil => simp [setKey, List.filter, hq]
  | cons p ps ih =>
    by_cases hp : p.1 == k
    · have hpk : p.1 = k := eq_of_beq hp
      have hqp : q p = false := by
        have := hq p.2
        rwa [← hpk] at this
      simp [setKey, List.filter, hp, hqp, hq]
    · by_cases hqp : q p
      · simp [setKey, List.filter, hp, hqp, ih]
      · simp [setKey, List.filter, hp, hqp, ih]

/-- A manifest binding is unrelated to the patch iff its key is neither
`type` nor `scripts`. -/
def unrelatedKey (p : String × JValue) : Bool :=
  p.1 != "type" && p.1 != "scripts"

/-- Split a character list at every occurrence of the separator `c`. -/
def splitOnChar (c : Char) : List Char → List (List Char)
  | [] => [[]]
  | x :: xs =>
    match splitOnChar c xs with
    | [] => if x == c then [[], []] else [[x]]
    | h :: t => if x == c then [] :: h :: t else (x :: h) :: t

/-- Parse a nonempty all-digit character list as a decimal number. -/
def parseNatAux : List Char → Nat → Option Nat
  | [], acc => some acc
  | c :: cs, acc =>
    if c.isDigit then parseNatAux cs (acc * 10 + (c.toNat - 48)) else none

/-- Parse a nonempty all-digit character list as a decimal number. -/
def parseNatDigits : List Char → Option Nat
  | [] => none
  | cs => parseNatAux cs 0

/-- `parsePortFromUrl url` extracts the numeric port of a URL: the text
after the last `:`, if it is a number. -/
def parsePortFromUrl (url : String) : Option Nat :=
  ((splitOnChar ':' url.toList).getLast?).bind parseNatDigits

/-- C1: the generated bundler config has exactly one proxy rule, matched on
path prefix `/api`; but its rewrite `path.replace(/api/, '')` removes only
the literal text `api` (first occurrence, unanchored), so the forwarded
path `/api/users` becomes `//users`, not `/users` as specified. -/
theorem c1_rewrite_bug_eval :
    viteConfigJs.proxy.map (fun r => r.matchPath) = ["/api"] ∧
    viteConfigJs.proxy.map (fun r => applyRewrite r "/api/users") = ["//users"] :=
  ⟨rfl, rfl⟩

/-- C2: for every application name, the manifest patch sets `type` to
`"module"` and `scripts` to exactly the three scripts `dev` (`vite`),
`build` (`vite build`) and `start` (`NODE_ENV=production node server.js`). -/
theorem c2_manifest_patch_contents (n : String) :
    (generate n).patch =
      [ ("type", JValue.str "module"),
        ("scripts", JValue.obj
          [ ("dev", JValue.str "vite"),
            ("build", JValue.str "vite build"),
            ("start", JValue.str "NODE_ENV=production node server.js") ]) ] :=
  rfl

/-- C3: for every application name, the generator produces exactly 5
entries, whose relative paths are the 5 fixed paths. -/
theorem c3_entries_complete (n : String) :
    (generate n).entries.map Prod.fst =
      ["server.js", "vite.config.js", "index.html", "src/index.jsx", "src/App.jsx"] ∧
    (generate n).entries.length = 5 :=
  ⟨rfl, rfl⟩

/-- C4: the generator's output is invariant in the application name: any
two names yield identical entries and manifest patch (so in particular two
calls with the same name yield identical output). -/
theorem c4_generate_name_invariant (n1 n2 : String) :
    generate n1 = generate n2 :=
  rfl

/-- C5: when the target directory exists the CLI action exits with status 1
having performed no filesystem mutation and no process invocation (only a
console message); and this is the only error exit: when the directory does
not exist the action runs to completion without calling `process.exit`. -/
theorem c5_exists_check_fatal (cwd n : String) (m : List (String × JValue)) :
    (runCli cwd n true m).exitCode = some 1 ∧
    (runCli cwd n true m).effects.filter isMutation = [] ∧
    (runCli cwd n false m).exitCode = none :=
  ⟨rfl, rfl, rfl⟩

/-- C6: applying the manifest patch leaves every key other than `type` and
`scripts` bound to its old value, and preserves the relative order of those
untouched bindings. -/
theorem c6_patch_preserves_unrelated_keys (m : List (String × JValue)) (k : String)
    (h1 : k ≠ "type") (h2 : k ≠ "scripts") :
    getKey (applyManifestPatch m) k = getKey m k ∧
    (applyManifestPatch m).filter unrelatedKey = m.filter unrelatedKey := by
  constructor
  · rw [applyManifestPatch, getKey_setKey_ne _ _ _ _ h2, getKey_setKey_ne _ _ _ _ h1]
  · have hs : ∀ w, unrelatedKey ("scripts", w) = false := fun _ => rfl
    have ht : ∀ w, unrelatedKey ("type", w) = false := fun _ => rfl
    rw [applyManifestPatch,
      filter_setKey _ "scripts" _ unrelatedKey hs,
      filter_setKey _ "type" _ unrelatedKey ht]

/-- C6 witness: a manifest holding only `"description": "x"` keeps that
binding unchanged through the patch. -/
theorem c6_witness :
    getKey (applyManifestPatch [("description", JValue.str "x")]) "description" =
      getKey [("description", JValue.str "x")] "description" ∧
    (applyManifestPatch [("description", JValue.str "x")]).filter unrelatedKey =
      [("description", JValue.str "x")].filter unrelatedKey :=
  c6_patch_preserves_unrelated_keys [("description", JValue.str "x")] "description"
    (by decide) (by decide)

/-- C7: the manifest patch is idempotent: applying it twice equals applying
it once, on every base manifest. -/
theorem c7_patch_idempotent (m : List (String × JValue)) :
    applyManifestPatch (applyManifestPatch m) = applyManifestPatch m := by
  unfold applyManifestPatch
  have htype :
      getKey (setKey (setKey m "type" (JValue.str "module")) "scripts"
        (JValue.obj scriptsObj)) "type" = some (JValue.str "module") := by
    rw [getKey_setKey_ne _ _ _ _ (by decide)]
    exact getKey_setKey_self _ _ _
  rw [setKey_getKey_eq _ _ _ htype]
  exact setKey_getKey_eq _ _ _ (getKey_setKey_self _ _ _)

/-- C8: the generated `index.html` entry contains exactly one element whose
`id` attribute is `root`, and exactly one `script` element of type `module`
whose `src` is `/src/index.jsx`. -/
theorem c8_html_mount_and_script (n : String) :
    (generate n).entries.find? (fun e => e.1 == "index.html") =
      some ("index.html", FileContent.html indexHtml) ∧
    countElems (fun _ attrs => hasAttr attrs "id" "root") indexHtml.root = 1 ∧
    countElems (fun tag attrs =>
        tag == "script" && hasAttr attrs "type" "module" &&
        hasAttr attrs "src" "/src/index.jsx") indexHtml.root = 1 :=
  ⟨rfl, rfl, rfl⟩

/-- C9: the patch replaces the whole `scripts` object: after patching, the
`scripts` value is exactly the fixed three-script object, so any script name
other than `dev`, `build`, `start` (such as the `test` script that
`npm init -y` writes) is absent from it. -/
theorem c9_scripts_replaced_wholesale (m : List (String × JValue)) (k : String)
    (h1 : k ≠ "dev") (h2 : k ≠ "build") (h3 : k ≠ "start") :
    getKey (applyManifestPatch m) "scripts" = some (JValue.obj scriptsObj) ∧
    getKey scriptsObj k = none := by
  refine ⟨getKey_setKey_self _ _ _, ?_⟩
  simp [getKey, scriptsObj, List.find?,
    beq_eq_false_iff_ne.mpr (Ne.symm h1),
    beq_eq_false_iff_ne.mpr (Ne.symm h2),
    beq_eq_false_iff_ne.mpr (Ne.symm h3)]

/-- C9 witness: patching the manifest `npm init -y` produces (whose
`scripts` holds a `test` entry) yields a `scripts` object with no `test`
entry. -/
theorem c9_witness :
    getKey (applyManifestPatch
        [("scripts", JValue.obj [("test", JValue.str "exit 1")])]) "scripts" =
      some (JValue.obj scriptsObj) ∧
    getKey scriptsObj "test" = none :=
  c9_scripts_replaced_wholesale
    [("scripts", JValue.obj [("test", JValue.str "exit 1")])] "test"
    (by decide) (by decide) (by decide)

/-- C10: the generated files agree on the backend port: the server entry's
default port (used when `PORT` is unset) is 3000, and the single proxy rule
of the bundler config targets that same port. -/
theorem c10_ports_consistent :
    effectivePort none = Sum.inr 3000 ∧
    serverJs.defaultPort = 3000 ∧
    viteConfigJs.proxy.map (fun r => parsePortFromUrl r.target) =
      [some serverJs.defaultPort] :=
  ⟨rfl, rfl, rfl⟩
